import Mathlib

/-!
Shallow embedding of the dosirak storefront client (src/App.tsx and its
types module) for checking the specification claims.  JavaScript numbers
that only ever hold integer currency amounts, quantities and millisecond
timestamps are modelled as `Int`; `parseFloat` results that may be `NaN`
are modelled as `Option Int` with `none` for `NaN`; JS strings are `String`;
nullable values are `Option`.
-/

namespace Dosirak

/-- Menu item category, from the union type in types.ts. -/
inductive Category
  | premium
  | regular
  | diet
deriving Repr, DecidableEq

/-- Order status, from the union type in types.ts. -/
inductive OrderStatus
  | pending
  | preparing
  | delivering
  | completed
  | cancelled
deriving Repr, DecidableEq

/-- Delivery time slot, from the union type in types.ts. -/
inductive DeliveryTime
  | lunch
  | dinner
deriving Repr, DecidableEq

/-- MenuItem record from types.ts. -/
structure MenuItem where
  id : String
  name : String
  description : String
  price : Int
  imageUrl : String
  category : Category
  calories : Option Int
  available : Bool
deriving Repr, DecidableEq

/-- CartItem record from types.ts: a MenuItem snapshot plus a quantity. -/
structure CartItem extends MenuItem where
  quantity : Int
deriving Repr, DecidableEq

/-- Order record from types.ts (the `id` field is store-assigned after
insertion, so the client-constructed record omits it, as in
`Omit<Order, 'id'>` in handleCheckout). -/
structure Order where
  userId : String
  userEmail : String
  items : List CartItem
  totalAmount : Int
  status : OrderStatus
  address : String
  contact : String
  deliveryDate : String
  deliveryTime : DeliveryTime
  createdAt : Int
deriving Repr, DecidableEq

/-- Toast severity from the `type` field of the toast state. -/
inductive ToastType
  | success
  | error
deriving Repr, DecidableEq

/-- The `{msg, type}` toast state of App. -/
structure Toast where
  msg : String
  ty : ToastType
deriving Repr, DecidableEq

/-- Firebase user as consumed by the auth listener (uid plus nullable
email / displayName / photoURL). -/
structure FirebaseUser where
  uid : String
  email : Option String
  displayName : Option String
  photoURL : Option String
deriving Repr, DecidableEq

/-- UserProfile record from types.ts. -/
structure UserProfile where
  uid : String
  email : Option String
  displayName : Option String
  photoURL : Option String
  isAdmin : Bool
deriving Repr, DecidableEq

/-- `ADMIN_EMAIL` constant from types.ts. -/
def ADMIN_EMAIL : String := "acehwan69@gmail.com"

/-- The profile built by the `onAuthStateChanged` listener in App for a
signed-in firebase user: `isAdmin: firebaseUser.email === ADMIN_EMAIL`
(strict equality; a null email compares unequal to any string). -/
def profileOf (fu : FirebaseUser) : UserProfile :=
  { uid := fu.uid
    email := fu.email
    displayName := fu.displayName
    photoURL := fu.photoURL
    isAdmin := fu.email == some ADMIN_EMAIL }

/-- The full auth-state transition: a signed-in user yields `profileOf`,
no user yields `null` (here `none`). -/
def onAuthState (fu : Option FirebaseUser) : Option UserProfile :=
  fu.map profileOf

/-- The `user?.isAdmin` pattern used throughout App: false when there is
no signed-in user. -/
def isAdminFlag (user : Option UserProfile) : Bool :=
  match user with
  | some u => u.isAdmin
  | none => false

/-- `addToCart` from App: if an entry with the item id exists, increment
its quantity, else append a new entry with quantity 1; always emits a
success toast naming the item. Returns (new cart, toast). -/
def addToCart (cart : List CartItem) (item : MenuItem) : List CartItem × Toast :=
  (if cart.any (fun i => i.id == item.id) then
     cart.map (fun i =>
       if i.id == item.id then { i with quantity := i.quantity + 1 } else i)
   else cart ++ [{ toMenuItem := item, quantity := 1 }],
   { msg := item.name ++ " 장바구니에 담김", ty := ToastType.success })

/-- `updateQuantity` from App: clamp the updated quantity at 1 via
`Math.max(1, quantity + delta)`; entries with other ids are untouched. -/
def updateQuantity (cart : List CartItem) (id : String) (delta : Int) : List CartItem :=
  cart.map (fun item =>
    if item.id == id then { item with quantity := max 1 (item.quantity + delta) }
    else item)

/-- `removeFromCart` from App: keep the entries whose id differs. -/
def removeFromCart (cart : List CartItem) (id : String) : List CartItem :=
  cart.filter (fun i => i.id != id)

/-- The cart operations available in App (clear is `setCart([])`, run on
logout and on successful checkout). -/
inductive CartOp
  | add (item : MenuItem)
  | setQty (id : String) (delta : Int)
  | remove (id : String)
  | clear

/-- Apply one cart operation. -/
def applyOp (cart : List CartItem) : CartOp → List CartItem
  | CartOp.add item => (addToCart cart item).1
  | CartOp.setQty id d => updateQuantity cart id d
  | CartOp.remove id => removeFromCart cart id
  | CartOp.clear => []

/-- Run a sequence of cart operations from the initial empty cart. -/
def runOps (ops : List CartOp) : List CartItem :=
  ops.foldl applyOp []

/-- The ids of the cart entries. -/
def cartIds (cart : List CartItem) : List String :=
  cart.map (fun i => i.id)

/-- The cart invariant claimed by the spec: at most one entry per menu
item id, and every quantity is at least 1. -/
def CartInv (cart : List CartItem) : Prop :=
  (cartIds cart).Nodup ∧ ∀ i ∈ cart, 1 ≤ i.quantity

/-- The cart subtotal computed in CartDrawer:
`cart.reduce((sum, item) => sum + (item.price * item.quantity), 0)`. -/
def CartDrawer.total (cart : List CartItem) : Int :=
  cart.foldl (fun sum item => sum + item.price * item.quantity) 0

/-- The delivery details collected by CheckoutModal and passed to
`onSubmit`. -/
structure CheckoutDetails where
  address : String
  contact : String
  deliveryDate : String
  deliveryTime : DeliveryTime
deriving Repr, DecidableEq

/-- The `disabled` condition of the CheckoutModal submit button:
`!address || !contact || !deliveryDate` (a JS string is falsy exactly
when it is empty). -/
def submitDisabled (address contact deliveryDate : String) : Bool :=
  address.isEmpty || contact.isEmpty || deliveryDate.isEmpty

/-- The slice of App state that handleCheckout touches. -/
structure AppState where
  cart : List CartItem
  isCartOpen : Bool
  isCheckoutOpen : Bool
  toast : Option Toast
deriving Repr, DecidableEq

/-- The `orderData` record constructed in handleCheckout:
`totalAmount` is `cart.reduce((sum, item) => sum + (item.price * item.quantity), 0)`
computed over the cart at submission time, status starts as pending, and
a null user email is replaced by the fallback string. -/
def orderData (u : UserProfile) (cart : List CartItem) (d : CheckoutDetails)
    (now : Int) : Order :=
  { userId := u.uid
    userEmail := u.email.getD "알 수 없음"
    items := cart
    totalAmount := cart.foldl (fun sum item => sum + item.price * item.quantity) 0
    status := OrderStatus.pending
    address := d.address
    contact := d.contact
    deliveryDate := d.deliveryDate
    deliveryTime := d.deliveryTime
    createdAt := now }

/-- `handleCheckout` from App.  `persistOk` models whether the awaited
`addDoc` into the orders collection resolves or throws.  Returns the new
app state together with the order record that was successfully persisted
(if any): no user aborts with an error toast (the sign-in flow is then
triggered, not modelled); persistence success clears the cart, closes the
checkout modal and the cart drawer and shows a success toast; a thrown
persistence error is caught and only sets an error toast, leaving cart and
modal flags as they were. -/
def handleCheckout (user : Option UserProfile) (persistOk : Bool)
    (st : AppState) (d : CheckoutDetails) (now : Int) :
    AppState × Option Order :=
  match user with
  | none =>
      ({ st with toast := some { msg := "주문하려면 로그인이 필요합니다", ty := ToastType.error } },
       none)
  | some u =>
      if persistOk then
        ({ cart := []
           isCartOpen := false
           isCheckoutOpen := false
           toast := some { msg := "주문이 완료되었습니다!", ty := ToastType.success } },
         some (orderData u st.cart d now))
      else
        ({ st with toast := some { msg := "주문 처리에 실패했습니다", ty := ToastType.error } },
         none)

/-- Milliseconds per day. -/
def msPerDay : Int := 86400000

/-- The UTC calendar day (as an epoch day number) of a millisecond
timestamp: this is the date that `toISOString().split('T')[0]` renders,
since `toISOString` always formats in UTC. -/
def utcDay (ms : Int) : Int :=
  Int.fdiv ms msPerDay

/-- The local calendar day (epoch day number) of a millisecond timestamp
for a session whose local time is `off` minutes ahead of UTC (a fixed
offset; DST transitions are outside this model). -/
def localDay (off ms : Int) : Int :=
  Int.fdiv (ms + off * 60000) msPerDay

/-- The default delivery date set by the CheckoutModal open effect:
`tomorrow = new Date(); tomorrow.setDate(tomorrow.getDate() + 1)` advances
the instant by exactly 24 hours under a fixed UTC offset, and
`toISOString().split('T')[0]` then takes the UTC calendar date of that
instant. -/
def checkoutDefaultDay (now : Int) : Int :=
  utcDay (now + msPerDay)

/-- The `min` attribute of the delivery date input:
`new Date().toISOString().split('T')[0]`, the UTC calendar date of now. -/
def checkoutMinDay (now : Int) : Int :=
  utcDay now

/-- The Korean short weekday names produced by
`toLocaleDateString('ko-KR', { weekday: 'short' })`, indexed by JS weekday
number (0 = Sunday). -/
def koWeekdayShort (w : Int) : String :=
  if w = 0 then "일"
  else if w = 1 then "월"
  else if w = 2 then "화"
  else if w = 3 then "수"
  else if w = 4 then "목"
  else if w = 5 then "금"
  else "토"

/-- The grouping key used by the admin revenue chart for one order:
the localized short weekday name of `new Date(o.createdAt)` in the local
time zone (epoch day 0, 1970-01-01, was a Thursday, weekday 4). -/
def weekdayLabel (off ms : Int) : String :=
  koWeekdayShort ((localDay off ms + 4) % 7)

/-- One step of the `stats` accumulation in chartData:
`stats[date] = (stats[date] || 0) + o.totalAmount`, with JS object
insertion-order semantics for the non-index string keys, followed at the
end by `Object.entries`. -/
def statsStep (off : Int) (stats : List (String × Int)) (o : Order) :
    List (String × Int) :=
  let key := weekdayLabel off o.createdAt
  if stats.any (fun p => p.1 == key) then
    stats.map (fun p => if p.1 == key then (p.1, p.2 + o.totalAmount) else p)
  else
    stats ++ [(key, o.totalAmount)]

/-- `chartData` from AdminDashboard: fold the orders into the weekday
keyed revenue sums and list the (name, value) entries. -/
def chartData (off : Int) (orders : List Order) : List (String × Int) :=
  orders.foldl (statsStep off) []

/-- The observable effect of the admin `deleteMenu` action. -/
structure DeleteEffect where
  deletes : List String
  toast : Option Toast
deriving Repr, DecidableEq

/-- `deleteMenu` from App: `if(!window.confirm(...)) return;` issues
nothing at all when the prompt is dismissed; otherwise exactly one
`deleteDoc` for the id is issued, followed by a success or error toast
depending on whether the delete resolved (`deleteOk`). -/
def deleteMenu (confirmOk : Bool) (deleteOk : Bool) (id : String) : DeleteEffect :=
  if !confirmOk then
    { deletes := [], toast := none }
  else if deleteOk then
    { deletes := [id], toast := some { msg := "메뉴가 삭제되었습니다", ty := ToastType.success } }
  else
    { deletes := [id], toast := some { msg := "메뉴 삭제 실패", ty := ToastType.error } }

/-- The `newMenu` form state of AdminDashboard.  `price` and `calories`
come from `parseFloat` of the raw input and may be `NaN`, modelled as
`none`; a numeric value is `some`. -/
structure NewMenuForm where
  name : String
  description : String
  price : Option Int
  category : Option Category
  available : Bool
  imageUrl : Option String
  calories : Option Int
deriving Repr, DecidableEq

/-- The initial / reset value of the `newMenu` form state. -/
def initialNewMenu : NewMenuForm :=
  { name := ""
    description := ""
    price := some 0
    category := some Category.regular
    available := true
    imageUrl := none
    calories := none }

/-- JS truthiness of the `newMenu.price` number: a number is truthy
exactly when it is neither 0 nor NaN. -/
def priceTruthy : Option Int → Bool
  | some p => p != 0
  | none => false

/-- The record passed to `onAddMenu` by handleAddSubmit, with fallbacks:
empty description stays empty, missing category falls back to regular,
missing imageUrl falls back to a generated placeholder reference
(`placeholder`, standing for the random picsum URL). -/
def newMenuRecord (form : NewMenuForm) (placeholder : String) :
    Option MenuItem :=
  (form.price.map (fun p =>
    { id := ""
      name := form.name
      description := form.description
      price := p
      category := form.category.getD Category.regular
      available := form.available
      imageUrl := (form.imageUrl.filter (fun s => !s.isEmpty)).getD placeholder
      calories := form.calories }))

/-- The observable outcome of submitting the admin add-menu form. -/
structure AddSubmitResult where
  inserts : List MenuItem
  modalOpen : Bool
  form : NewMenuForm
  toast : Option Toast
deriving Repr, DecidableEq

/-- `handleAddSubmit` from AdminDashboard combined with the `addMenu`
callback of App: the guard `if (newMenu.name && newMenu.price)` runs the
insert only when the name is a non-empty string and the price number is
truthy (neither 0 nor NaN); on the insert path `addDoc` is issued (with a
success or error toast from `insertOk`), the modal is closed and the form
is reset; otherwise nothing at all happens. -/
def handleAddSubmit (modalOpen : Bool) (form : NewMenuForm)
    (insertOk : Bool) (placeholder : String) : AddSubmitResult :=
  if form.name != "" && priceTruthy form.price then
    { inserts := (newMenuRecord form placeholder).toList
      modalOpen := false
      form := initialNewMenu
      toast := some (if insertOk then
          { msg := "메뉴가 추가되었습니다", ty := ToastType.success }
        else
          { msg := "메뉴 추가 실패", ty := ToastType.error }) }
  else
    { inserts := [], modalOpen := modalOpen, form := form, toast := none }

/-! ### Sample data used by concrete witnesses -/

/-- A sample menu item. -/
def itemA : MenuItem :=
  { id := "m1", name := "불고기 도시락", description := "soy marinated beef"
    price := 8000, imageUrl := "", category := Category.regular
    calories := some 650, available := true }

/-- A second sample menu item. -/
def itemB : MenuItem :=
  { id := "m2", name := "연어 도시락", description := "grilled salmon"
    price := 12000, imageUrl := "", category := Category.premium
    calories := none, available := true }

/-- The example cart from the spec: {price 8000, qty 2} and
{price 12000, qty 1}. -/
def exampleCart : List CartItem :=
  [{ toMenuItem := itemA, quantity := 2 }, { toMenuItem := itemB, quantity := 1 }]

/-- A sample signed-in non-admin user profile. -/
def sampleUser : UserProfile :=
  { uid := "u1", email := some "customer@example.com"
    displayName := some "Kim", photoURL := none, isAdmin := false }

/-- A sample app state with the checkout modal and cart drawer open. -/
def sampleState : AppState :=
  { cart := exampleCart, isCartOpen := true, isCheckoutOpen := true, toast := none }

/-- Sample checkout details. -/
def sampleDetails : CheckoutDetails :=
  { address := "서울시 강남구 테헤란로 123", contact := "010-1111-2222"
    deliveryDate := "2024-05-01", deliveryTime := DeliveryTime.lunch }

/-! ### C4: the derived isAdmin flag -/

/-- C4: for every authentication state, the derived isAdmin flag is true
iff there is a signed-in identity whose email is exactly (case-sensitive)
the configured administrator address; a case-variant email, a null email,
or no identity at all all yield false. -/
theorem isAdmin_iff_admin_email :
    (∀ fu : Option FirebaseUser,
       isAdminFlag (onAuthState fu) = true ↔
         ∃ f, fu = some f ∧ f.email = some ADMIN_EMAIL) ∧
    isAdminFlag (onAuthState (some
      { uid := "u", email := some "Acehwan69@gmail.com"
        displayName := none, photoURL := none })) = false ∧
    isAdminFlag (onAuthState (some
      { uid := "u", email := none
        displayName := none, photoURL := none })) = false ∧
    isAdminFlag (onAuthState none) = false := by
  refine ⟨fun fu => ?_, by decide, by decide, by decide⟩
  cases fu with
  | none => simp [onAuthState, isAdminFlag]
  | some f => simp [onAuthState, isAdminFlag, profileOf]

/-! ### C8: checkout submit button gating -/

/-- C8: the checkout submit action is disabled iff at least one of the
address, contact, or deliveryDate fields is the empty string; in
particular address="", contact="010-1111-2222", deliveryDate="2024-05-01"
gives disabled. -/
theorem submitDisabled_iff_empty_field :
    (∀ a c d : String,
       submitDisabled a c d = true ↔ a = "" ∨ c = "" ∨ d = "") ∧
    submitDisabled "" "010-1111-2222" "2024-05-01" = true := by
  refine ⟨fun a c d => ?_, by decide⟩
  simp [submitDisabled, String.isEmpty_iff, or_assoc]

/-! ### C9: menu deletion requires confirmation -/

/-- C9: a menu item deletion request with the confirmation prompt
dismissed issues no delete call and emits no notification; a confirmed
request issues exactly one delete call for that item id. -/
theorem deleteMenu_confirmation_gate :
    (∀ (ok : Bool) (id : String),
       deleteMenu false ok id = { deletes := [], toast := none }) ∧
    (∀ (ok : Bool) (id : String), (deleteMenu true ok id).deletes = [id]) := by
  refine ⟨fun ok id => ?_, fun ok id => ?_⟩ <;> cases ok <;> rfl

/-! ### C7: cart total and the persisted totalAmount -/

/-- The left fold computing the subtotal equals the plain sum of
price × quantity over the entries. -/
theorem foldl_total_eq_sum (cart : List CartItem) (a : Int) :
    cart.foldl (fun sum item => sum + item.price * item.quantity) a
      = a + (cart.map (fun i => i.price * i.quantity)).sum := by
  induction cart generalizing a with
  | nil => simp
  | cons hd tl ih => simp [List.foldl_cons, ih, add_assoc]

/-- C7: the cart total is the sum over all entries of price × quantity
(28000 on the spec's example cart), and the totalAmount persisted in the
order constructed at checkout equals that same sum over the cart at
submission time. -/
theorem cart_total_and_persisted_total (cart : List CartItem)
    (u : UserProfile) (d : CheckoutDetails) (now : Int) (st : AppState) :
    CartDrawer.total cart = (cart.map (fun i => i.price * i.quantity)).sum ∧
    (orderData u cart d now).totalAmount = CartDrawer.total cart ∧
    ((handleCheckout (some u) true st d now).2.map Order.totalAmount)
      = some (CartDrawer.total st.cart) ∧
    CartDrawer.total exampleCart = 28000 := by
  refine ⟨?_, rfl, rfl, by decide⟩
  simpa using foldl_total_eq_sum cart 0

/-! ### C3: checkout submission outcomes -/

/-- C3: for an authenticated checkout submission, persistence success
clears the cart, closes both the checkout modal and the cart drawer and
shows a success notification; persistence failure keeps the cart exactly
as it was, leaves the checkout modal open and shows an error
notification. -/
theorem handleCheckout_outcomes (u : UserProfile) (st : AppState)
    (d : CheckoutDetails) (now : Int) (hopen : st.isCheckoutOpen = true) :
    ((handleCheckout (some u) true st d now).1.cart = [] ∧
     (handleCheckout (some u) true st d now).1.isCheckoutOpen = false ∧
     (handleCheckout (some u) true st d now).1.isCartOpen = false ∧
     (handleCheckout (some u) true st d now).1.toast =
       some { msg := "주문이 완료되었습니다!", ty := ToastType.success }) ∧
    ((handleCheckout (some u) false st d now).1.cart = st.cart ∧
     (handleCheckout (some u) false st d now).1.isCheckoutOpen = true ∧
     (handleCheckout (some u) false st d now).1.toast =
       some { msg := "주문 처리에 실패했습니다", ty := ToastType.error }) := by
  simp [handleCheckout, hopen]

/-- Witness for C3 at concrete inputs: the sample state has the checkout
modal open, and both outcome branches behave as claimed there. -/
theorem handleCheckout_outcomes_witness :
    ((handleCheckout (some sampleUser) true sampleState sampleDetails 0).1.cart = [] ∧
     (handleCheckout (some sampleUser) true sampleState sampleDetails 0).1.isCheckoutOpen = false ∧
     (handleCheckout (some sampleUser) true sampleState sampleDetails 0).1.isCartOpen = false ∧
     (handleCheckout (some sampleUser) true sampleState sampleDetails 0).1.toast =
       some { msg := "주문이 완료되었습니다!", ty := ToastType.success }) ∧
    ((handleCheckout (some sampleUser) false sampleState sampleDetails 0).1.cart = sampleState.cart ∧
     (handleCheckout (some sampleUser) false sampleState sampleDetails 0).1.isCheckoutOpen = true ∧
     (handleCheckout (some sampleUser) false sampleState sampleDetails 0).1.toast =
       some { msg := "주문 처리에 실패했습니다", ty := ToastType.error }) :=
  handleCheckout_outcomes sampleUser sampleState sampleDetails 0 rfl

/-! ### C2: default and minimum delivery dates on checkout open -/

/-- C2 counterexample: for a session 540 minutes ahead of UTC (the Korean
time zone) at timestamp 55800000 (1970-01-01 15:30 UTC, i.e. 1970-01-02
00:30 local), the code initializes the delivery date to UTC day 1 while
tomorrow's local calendar date is day 2, and the minimum selectable date
is UTC day 0 while today's local date is day 1 — so neither field matches
the local-time-zone dates the claim states. -/
theorem checkoutDates_not_local_counterexample :
    ¬ (checkoutDefaultDay 55800000 = localDay 540 55800000 + 1 ∧
       checkoutMinDay 55800000 = localDay 540 55800000) := by
  decide

/-- C2 amended: whenever the checkout modal opens, the delivery date
field is initialized to the UTC calendar date of the instant one day
after now (rendered by toISOString), and the minimum selectable delivery
date is the UTC calendar date of now — these coincide with the local
tomorrow/today only when the local calendar date equals the UTC one. -/
theorem checkoutDates_are_utc (now : Int) :
    checkoutDefaultDay now = utcDay now + 1 ∧
    checkoutMinDay now = utcDay now := by
  refine ⟨?_, rfl⟩
  show Int.fdiv (now + msPerDay) msPerDay = Int.fdiv now msPerDay + 1
  rw [Int.fdiv_eq_ediv _ (by norm_num [msPerDay]),
    Int.fdiv_eq_ediv _ (by norm_num [msPerDay])]
  rw [show now + msPerDay = now + 1 * msPerDay by ring]
  exact Int.add_mul_ediv_right now 1 (by norm_num [msPerDay])

/-! ### C1: the admin revenue aggregate -/

/-- An order with the given creation timestamp and total, the other
fields fixed (chartData only reads createdAt and totalAmount). -/
def chartOrder (ms amount : Int) : Order :=
  { userId := "u1", userEmail := "customer@example.com", items := []
    totalAmount := amount, status := OrderStatus.pending, address := ""
    contact := "", deliveryDate := "", deliveryTime := DeliveryTime.lunch
    createdAt := ms }

/-- C1 counterexample: orders on two distinct calendar days (epoch days 0
and 7, both Thursdays) with totals 10000 and 15000 on the first day and
5000 on the second produce a single chart group of 30000, not the two
groups {A: 25000, B: 5000} the claim states — the aggregation keys by
localized weekday name, which collides for days a week apart. -/
theorem chartData_day_collision_counterexample :
    localDay 0 0 ≠ localDay 0 604800000 ∧
    chartData 0 [chartOrder 0 10000, chartOrder 0 15000, chartOrder 604800000 5000]
      = [("목", 30000)] := by
  decide

/-- C1 amended: the aggregation keys orders by the localized short
weekday name of the creation timestamp (not the calendar day); for
orders with totals 10000 and 15000 on one calendar day and 5000 on a day
whose weekday name differs, the aggregate reports exactly the two groups
25000 (under the first day's weekday name) and 5000 (under the
second's). -/
theorem chartData_weekday_groups (off a1 a2 b : Int)
    (hday : localDay off a1 = localDay off a2)
    (hwk : weekdayLabel off a1 ≠ weekdayLabel off b) :
    chartData off [chartOrder a1 10000, chartOrder a2 15000, chartOrder b 5000]
      = [(weekdayLabel off a1, 25000), (weekdayLabel off b, 5000)] := by
  have hl : weekdayLabel off a2 = weekdayLabel off a1 := by
    unfold weekdayLabel
    rw [hday]
  have hne : (weekdayLabel off a1 == weekdayLabel off b) = false := by
    simpa using hwk
  simp [chartData, statsStep, chartOrder, hl, hne]

/-- Witness for the amended C1 at concrete inputs: both orders of day 0
(a Thursday) merge into a 25000 group and the order of day 1 (a Friday)
forms its own 5000 group. -/
theorem chartData_weekday_groups_witness :
    chartData 0 [chartOrder 0 10000, chartOrder 0 15000, chartOrder 86400000 5000]
      = [(weekdayLabel 0 0, 25000), (weekdayLabel 0 86400000, 5000)] :=
  chartData_weekday_groups 0 0 0 86400000 rfl (by decide)

/-! ### C5: cart invariants under the operation algebra -/

/-- The cart component of addToCart, spelled out. -/
theorem addToCart_fst (cart : List CartItem) (item : MenuItem) :
    (addToCart cart item).1 =
      if cart.any (fun i => i.id == item.id) then
        cart.map (fun i =>
          if i.id == item.id then { i with quantity := i.quantity + 1 } else i)
      else cart ++ [{ toMenuItem := item, quantity := 1 }] := rfl

/-- updateQuantity does not change the list of ids. -/
theorem cartIds_updateQuantity (cart : List CartItem) (s : String) (d : Int) :
    cartIds (updateQuantity cart s d) = cartIds cart := by
  unfold cartIds updateQuantity
  rw [List.map_map]
  apply List.map_congr_left
  intro i _
  by_cases h : i.id = s <;> simp [h]

/-- updateQuantity keeps every quantity at least 1: touched entries are
clamped at 1 and untouched entries keep their old quantity. -/
theorem mem_updateQuantity_qty (cart : List CartItem) (s : String) (d : Int)
    (h : ∀ i ∈ cart, 1 ≤ i.quantity) :
    ∀ i ∈ updateQuantity cart s d, 1 ≤ i.quantity := by
  intro i hi
  unfold updateQuantity at hi
  rw [List.mem_map] at hi
  obtain ⟨j, hj, rfl⟩ := hi
  by_cases hc : (j.id == s) = true
  · simp only [hc, if_true]
    exact le_max_left 1 _
  · simp only [hc]
    simp only [if_false, Bool.false_eq_true]
    exact h j hj

/-- updateQuantity on an id absent from the cart is a no-op. -/
theorem updateQuantity_absent (cart : List CartItem) (s : String) (d : Int)
    (h : ∀ i ∈ cart, i.id ≠ s) :
    updateQuantity cart s d = cart := by
  unfold updateQuantity
  have hcg : ∀ i ∈ cart, (fun item =>
      if item.id == s then { item with quantity := max 1 (item.quantity + d) }
      else item) i = id i := by
    intro i hi
    simp [h i hi]
  rw [List.map_congr_left hcg, List.map_id]

/-- removeFromCart on an id absent from the cart is a no-op. -/
theorem removeFromCart_absent (cart : List CartItem) (s : String)
    (h : ∀ i ∈ cart, i.id ≠ s) :
    removeFromCart cart s = cart := by
  unfold removeFromCart
  rw [List.filter_eq_self]
  intro i hi
  simpa using h i hi

/-- updateQuantity preserves the cart invariant. -/
theorem updateQuantity_inv (cart : List CartItem) (s : String) (d : Int)
    (h : CartInv cart) : CartInv (updateQuantity cart s d) := by
  obtain ⟨hnd, hq⟩ := h
  exact ⟨by rw [cartIds_updateQuantity]; exact hnd,
    mem_updateQuantity_qty cart s d hq⟩

/-- addToCart preserves the cart invariant. -/
theorem addToCart_inv (cart : List CartItem) (item : MenuItem)
    (h : CartInv cart) : CartInv (addToCart cart item).1 := by
  obtain ⟨hnd, hq⟩ := h
  rw [addToCart_fst]
  by_cases hex : cart.any (fun i => i.id == item.id) = true
  · simp only [hex, if_true]
    constructor
    · unfold cartIds
      rw [List.map_map]
      have hcg : ∀ i ∈ cart, ((fun i : CartItem => i.id) ∘ fun i =>
          if i.id == item.id then { i with quantity := i.quantity + 1 }
          else i) i = i.id := by
        intro i _
        by_cases hc : i.id = item.id <;> simp [hc]
      rw [List.map_congr_left hcg]
      exact hnd
    · intro i hi
      rw [List.mem_map] at hi
      obtain ⟨j, hj, rfl⟩ := hi
      have hqj := hq j hj
      by_cases hc : (j.id == item.id) = true
      · simp only [hc, if_true]
        omega
      · simp only [hc]
        simp only [if_false, Bool.false_eq_true]
        exact hqj
  · simp only [hex]
    simp only [if_false, Bool.false_eq_true]
    have habs : ∀ i ∈ cart, i.id ≠ item.id := by
      intro i hi
      have := (List.any_eq_true.not).mp hex
      push_neg at this
      have h2 := this i hi
      simpa using h2
    constructor
    · unfold cartIds
      rw [List.map_append]
      rw [List.nodup_append]
      refine ⟨hnd, by simp, ?_⟩
      intro a ha hb
      simp only [List.map_cons, List.map_nil, List.mem_singleton] at hb
      rw [List.mem_map] at ha
      obtain ⟨j, hj, rfl⟩ := ha
      exact habs j hj hb
    · intro i hi
      rw [List.mem_append] at hi
      rcases hi with hi | hi
      · exact hq i hi
      · simp only [List.mem_singleton] at hi
        subst hi
        norm_num


/-- removeFromCart preserves the cart invariant. -/
theorem removeFromCart_inv (cart : List CartItem) (s : String)
    (h : CartInv cart) : CartInv (removeFromCart cart s) := by
  obtain ⟨hnd, hq⟩ := h
  constructor
  · have hs : List.Sublist (removeFromCart cart s) cart :=
      List.filter_sublist cart
    unfold cartIds at hnd ⊢
    exact hnd.sublist (hs.map (fun i => i.id))
  · intro i hi
    exact hq i (List.mem_of_mem_filter hi)

/-- The empty cart satisfies the invariant. -/
theorem cartInv_nil : CartInv ([] : List CartItem) := by
  constructor
  · simp [cartIds]
  · intro i hi
    simp at hi

/-- Every cart operation preserves the cart invariant. -/
theorem applyOp_inv (cart : List CartItem) (op : CartOp)
    (h : CartInv cart) : CartInv (applyOp cart op) := by
  cases op with
  | add item => exact addToCart_inv cart item h
  | setQty id d => exact updateQuantity_inv cart id d h
  | remove id => exact removeFromCart_inv cart id h
  | clear => exact cartInv_nil

/-- The cart invariant holds along any run of operations. -/
theorem foldl_applyOp_inv (ops : List CartOp) (cart : List CartItem)
    (h : CartInv cart) : CartInv (ops.foldl applyOp cart) := by
  induction ops generalizing cart with
  | nil => exact h
  | cons op tl ih => exact ih (applyOp cart op) (applyOp_inv cart op h)

/-- C5: every cart state reachable from the empty cart by add,
setQuantity, remove and clear operations has at most one entry per menu
item id and every quantity at least 1; setQuantity keeps all quantities
at least 1 for any delta, and setQuantity or remove on an id absent from
the cart leaves the cart unchanged. -/
theorem cart_reachable_invariant (ops : List CartOp)
    (cart cart2 : List CartItem) (id id2 : String) (d d2 : Int)
    (habs : ∀ i ∈ cart, i.id ≠ id)
    (hq2 : ∀ i ∈ cart2, 1 ≤ i.quantity) :
    CartInv (runOps ops) ∧
    updateQuantity cart id d = cart ∧
    removeFromCart cart id = cart ∧
    (∀ i ∈ updateQuantity cart2 id2 d2, 1 ≤ i.quantity) :=
  ⟨foldl_applyOp_inv ops [] cartInv_nil,
   updateQuantity_absent cart id d habs,
   removeFromCart_absent cart id habs,
   mem_updateQuantity_qty cart2 id2 d2 hq2⟩

/-- Witness for C5 at concrete inputs: a mixed operation sequence keeps
the invariant, the absent-id operations do not change a concrete cart,
and a large negative delta keeps quantities at least 1. -/
theorem cart_reachable_invariant_witness :
    CartInv (runOps [CartOp.add itemA, CartOp.add itemA,
      CartOp.setQty "m1" (-5), CartOp.add itemB, CartOp.remove "m2",
      CartOp.clear, CartOp.add itemB]) ∧
    updateQuantity exampleCart "zzz" (-7) = exampleCart ∧
    removeFromCart exampleCart "zzz" = exampleCart ∧
    (∀ i ∈ updateQuantity exampleCart "m1" (-100), 1 ≤ i.quantity) :=
  cart_reachable_invariant
    [CartOp.add itemA, CartOp.add itemA, CartOp.setQty "m1" (-5),
     CartOp.add itemB, CartOp.remove "m2", CartOp.clear, CartOp.add itemB]
    exampleCart exampleCart "zzz" "m1" (-7) (-100)
    (by decide) (by decide)

/-! ### C6: repeated addToCart with the same item -/

/-- n-fold repetition of addToCart with the same item. -/
def addN (n : Nat) (cart : List CartItem) (item : MenuItem) : List CartItem :=
  match n with
  | 0 => cart
  | k + 1 => (addToCart (addN k cart item) item).1

/-- The increment map of addToCart leaves entries with other ids
unchanged. -/
theorem bump_map_noop (l : List CartItem) (s : String)
    (h : ∀ i ∈ l, i.id ≠ s) :
    l.map (fun i => if i.id == s then { i with quantity := i.quantity + 1 }
      else i) = l := by
  have hcg : ∀ i ∈ l, (fun i : CartItem =>
      if i.id == s then { i with quantity := i.quantity + 1 } else i) i
        = id i := by
    intro i hi
    simp [h i hi]
  rw [List.map_congr_left hcg, List.map_id]

/-- The increment map of addToCart commutes with filtering on the added
id, because the map preserves ids. -/
theorem filter_bump_comm (l : List CartItem) (s : String) :
    (l.map (fun i => if i.id == s then { i with quantity := i.quantity + 1 }
      else i)).filter (fun i => i.id == s)
    = (l.filter (fun i => i.id == s)).map
        (fun i => { i with quantity := i.quantity + 1 }) := by
  induction l with
  | nil => rfl
  | cons hd tl ih =>
      by_cases h : hd.id = s
      · simp only [List.map_cons, List.filter_cons, h, beq_self_eq_true,
          if_true, ih]
      · simp only [List.map_cons, List.filter_cons]
        have e : (if (hd.id == s) = true
            then ({ hd with quantity := hd.quantity + 1 } : CartItem)
            else hd) = hd := if_neg (by simpa using h)
        rw [e]
        rw [if_neg (by simpa using h), if_neg (by simpa using h)]
        exact ih

/-- Starting from a cart without the item id, k + 1 adds append one
entry for the item carrying quantity k + 1 and touch nothing else. -/
theorem addN_absent (cart : List CartItem) (item : MenuItem)
    (habs : ∀ i ∈ cart, i.id ≠ item.id) :
    ∀ k : Nat, addN (k + 1) cart item
      = cart ++ [({ toMenuItem := item, quantity := ((k + 1 : Nat) : Int) } :
          CartItem)] := by
  intro k
  induction k with
  | zero =>
      show (addToCart (addN 0 cart item) item).1 = _
      rw [show addN 0 cart item = cart from rfl, addToCart_fst]
      have hany : (cart.any (fun i => i.id == item.id)) = false := by
        rw [List.any_eq_false]
        intro i hi
        simpa using habs i hi
      rw [if_neg (by simp [hany])]
      norm_num
  | succ k ih =>
      show (addToCart (addN (k + 1) cart item) item).1 = _
      rw [ih, addToCart_fst]
      have hany : ((cart ++ [({ toMenuItem := item, quantity := ((k + 1 : Nat) : Int) } : CartItem)]).any (fun i => i.id == item.id)) = true := by simp
      rw [if_pos hany, List.map_append, bump_map_noop cart item.id habs]
      simp

/-- C6: n ≥ 1 adds of the same item onto a cart not containing its id
leave exactly one entry for that id, carrying quantity n; an add whose id
is already the cart's unique entry for that id increments that entry's
quantity by 1; and every add emits a success toast naming the item. -/
theorem addToCart_repeat (n : Nat) (cart : List CartItem) (item : MenuItem)
    (cart2 : List CartItem) (item2 : MenuItem) (j : CartItem)
    (hn : 1 ≤ n)
    (habs : ∀ i ∈ cart, i.id ≠ item.id)
    (hpres : cart2.filter (fun i => i.id == item2.id) = [j]) :
    addN n cart item = cart ++ [{ toMenuItem := item, quantity := (n : Int) }] ∧
    (addN n cart item).filter (fun i => i.id == item.id)
      = [{ toMenuItem := item, quantity := (n : Int) }] ∧
    ((addN n cart item).filter (fun i => i.id == item.id)).length = 1 ∧
    (addToCart cart2 item2).1.filter (fun i => i.id == item2.id)
      = [{ j with quantity := j.quantity + 1 }] ∧
    (addToCart cart item).2
      = { msg := item.name ++ " 장바구니에 담김", ty := ToastType.success } := by
  obtain ⟨k, rfl⟩ : ∃ k, n = k + 1 := ⟨n - 1, by omega⟩
  have hmain := addN_absent cart item habs k
  have hfilter : (addN (k + 1) cart item).filter (fun i => i.id == item.id)
      = [({ toMenuItem := item, quantity := ((k + 1 : Nat) : Int) } : CartItem)] := by
    rw [hmain, List.filter_append]
    rw [List.filter_eq_nil_iff.mpr (fun i hi => by simpa using habs i hi)]
    simp
  have hj : j ∈ cart2.filter (fun i => i.id == item2.id) := by
    rw [hpres]
    exact List.mem_singleton_self j
  have hany2 : (cart2.any (fun i => i.id == item2.id)) = true := by
    rw [List.any_eq_true]
    have hj2 := List.mem_filter.mp hj
    exact ⟨j, hj2.1, hj2.2⟩
  refine ⟨hmain, hfilter, by rw [hfilter]; rfl, ?_, rfl⟩
  rw [addToCart_fst, if_pos hany2, filter_bump_comm, hpres]
  rfl

/-- Witness for C6 at concrete inputs: three adds of itemA into the empty
cart give the single entry of quantity 3, and an add of itemA onto the
example cart (whose unique itemA entry has quantity 2) bumps it to 3. -/
theorem addToCart_repeat_witness :
    addN 3 [] itemA = [] ++ [{ toMenuItem := itemA, quantity := ((3 : Nat) : Int) }] ∧
    (addN 3 [] itemA).filter (fun i => i.id == itemA.id)
      = [{ toMenuItem := itemA, quantity := ((3 : Nat) : Int) }] ∧
    ((addN 3 [] itemA).filter (fun i => i.id == itemA.id)).length = 1 ∧
    (addToCart exampleCart itemA).1.filter (fun i => i.id == itemA.id)
      = [{ ({ toMenuItem := itemA, quantity := 2 } : CartItem) with
            quantity := ({ toMenuItem := itemA, quantity := 2 } : CartItem).quantity + 1 }] ∧
    (addToCart [] itemA).2
      = { msg := itemA.name ++ " 장바구니에 담김", ty := ToastType.success } :=
  addToCart_repeat 3 [] itemA exampleCart itemA
    { toMenuItem := itemA, quantity := 2 }
    (by norm_num) (by simp) (by decide)

/-! ### C10: admin add-menu form validation -/

/-- JS truthiness of the price value: truthy exactly when it is a number
other than 0. -/
theorem priceTruthy_iff (o : Option Int) :
    priceTruthy o = true ↔ ∃ p, o = some p ∧ p ≠ 0 := by
  cases o <;> simp [priceTruthy]

/-- A sample valid add-menu form. -/
def sampleNewMenu : NewMenuForm :=
  { name := "제육볶음 도시락", description := "stir fried pork"
    price := some 7000, category := some Category.regular
    available := true, imageUrl := none, calories := none }

/-- C10: submitting the admin add-menu form issues an insert exactly when
the name is non-empty and the price is a number other than 0; with an
empty name, a NaN price, or a price of 0 the submission is a silent
no-op — no insert, no toast, the modal keeps its open state and the form
fields are unchanged. -/
theorem handleAddSubmit_validation (mo : Bool) (form : NewMenuForm)
    (ok : Bool) (ph : String) (mo2 : Bool) (form2 : NewMenuForm)
    (ok2 : Bool) (ph2 : String)
    (h2 : form2.name = "" ∨ form2.price = none ∨ form2.price = some 0) :
    ((handleAddSubmit mo form ok ph).inserts ≠ [] ↔
       form.name ≠ "" ∧ ∃ p, form.price = some p ∧ p ≠ 0) ∧
    handleAddSubmit mo2 form2 ok2 ph2 =
      { inserts := [], modalOpen := mo2, form := form2, toast := none } := by
  constructor
  · unfold handleAddSubmit
    by_cases hg : (form.name != "" && priceTruthy form.price) = true
    · rw [if_pos hg]
      simp only [Bool.and_eq_true, bne_iff_ne] at hg
      obtain ⟨hname, hp⟩ := hg
      rw [priceTruthy_iff] at hp
      obtain ⟨p, hp, hp0⟩ := hp
      constructor
      · intro _
        exact ⟨hname, p, hp, hp0⟩
      · intro _
        simp [newMenuRecord, hp]
    · rw [if_neg hg]
      constructor
      · intro h
        simp at h
      · rintro ⟨hname, p, hp, hp0⟩
        refine absurd ?_ hg
        simp only [Bool.and_eq_true, bne_iff_ne]
        exact ⟨hname, (priceTruthy_iff _).mpr ⟨p, hp, hp0⟩⟩
  · unfold handleAddSubmit
    have hg2 : ¬ ((form2.name != "" && priceTruthy form2.price) = true) := by
      simp only [Bool.and_eq_true, bne_iff_ne, not_and]
      intro hname hp
      rcases h2 with h | h | h
      · exact absurd h hname
      · rw [priceTruthy_iff] at hp
        obtain ⟨p, hq, hp0⟩ := hp
        rw [h] at hq
        exact Option.noConfusion hq
      · rw [priceTruthy_iff] at hp
        obtain ⟨p, hq, hp0⟩ := hp
        rw [h] at hq
        exact hp0 (Option.some.inj hq).symm
    rw [if_neg hg2]

/-- Witness for C10 at concrete inputs: a filled form issues the insert,
and the initial form (empty name, price 0) is a silent no-op. -/
theorem handleAddSubmit_validation_witness :
    ((handleAddSubmit true sampleNewMenu true "ph").inserts ≠ [] ↔
       sampleNewMenu.name ≠ "" ∧ ∃ p, sampleNewMenu.price = some p ∧ p ≠ 0) ∧
    handleAddSubmit false initialNewMenu false "ph" =
      { inserts := [], modalOpen := false, form := initialNewMenu, toast := none } :=
  handleAddSubmit_validation true sampleNewMenu true "ph" false initialNewMenu
    false "ph" (Or.inl rfl)

end Dosirak
